import Mathlib

/-!
Verification of the arcade-simulator core: a shallow embedding in Lean 4 of the
four game simulations (Snake, Tetris, Space Invaders, Breakout) and the shared
BaseGame scoring/game-over contract, together with theorems settling the
specification claims.

Conventions of the embedding:
* JS numbers are modelled as `ℤ` (grid coordinates), `ℕ` (scores, counters,
  millisecond intervals) or `ℚ`/`ℝ` (continuous positions and velocities);
  all arithmetic in the modelled code paths is exact, so no rounding model is
  needed except for the trigonometric paddle bounce, which is modelled over `ℝ`.
* `Math.random()`-driven choices are passed in explicitly (a sampling function
  `ℕ → _` for the snake food, a `Bool` roll and an index for alien fire), making
  each update a deterministic function of state plus random inputs.
* Side effects on external collaborators are modelled as state fields:
  `controller.gameOver(score)` appends to `reportedScores` and bumps
  `notifications`; `playSound` is omitted (pure event emission, no state).
* Rendering code is not modelled (it is excluded from the core contract).
-/

namespace Arcade

/-! ## BaseGame shared scoring (src/unnamed/part_003, class BaseGame)

`addScore(points)` does `this.score += points`. Every call site in the four
games passes a non-negative integer, so scores are modelled as `ℕ`. -/

/-- BaseGame.addScore: add points to the score. -/
def addScore (score points : ℕ) : ℕ := score + points

/-! ## Snake (src/unnamed/part_002, class SnakeGame)

Grid cells are `ℤ × ℤ` pairs; the board is `[0, tileX) × [0, tileY)`.
The snake list is head-first, as in the source. -/

/-- State of the Snake game. `notifications`/`reportedScores` model the calls
of `controller.gameOver(score)` made by `BaseGame.triggerGameOver`. -/
structure SnakeState where
  tileX : ℤ
  tileY : ℤ
  snake : List (ℤ × ℤ)
  direction : ℤ × ℤ
  nextDirection : ℤ × ℤ
  food : ℤ × ℤ
  growPending : ℕ
  moveInterval : ℕ
  score : ℕ
  isRunning : Bool
  notifications : ℕ
  reportedScores : List ℕ
  deriving Repr, DecidableEq

/-- True when the cell `p` lies on the snake body
(`this.snake.some(segment => segment.x === p.x && segment.y === p.y)`). -/
def snakeOccupies (snake : List (ℤ × ℤ)) (p : ℤ × ℤ) : Bool :=
  snake.any (fun seg => seg = p)

/-- The rejection-sampling loop of `SnakeGame.spawnFood`: `attempt` counts how
many samples were drawn so far, `fuel` is the remaining attempt budget
(initially 100), `cur` the food position written by the previous attempt.
Each iteration overwrites the food with the next sample `rnd attempt` and stops
as soon as the sample misses the snake or the budget is exhausted. -/
def spawnFoodGo (occ : ℤ × ℤ → Bool) (rnd : ℕ → ℤ × ℤ) : ℕ → ℕ → ℤ × ℤ → ℤ × ℤ
  | _, 0, cur => cur
  | attempt, fuel + 1, _ =>
      let f := rnd attempt
      if occ f then spawnFoodGo occ rnd (attempt + 1) fuel f else f

/-- SnakeGame.spawnFood: draw up to 100 random cells, keeping the first one not
on the snake; if all 100 samples hit the snake the last sample stands.
`rnd k` is the k-th sampled cell (the source draws it uniformly from the grid
via `Math.floor(Math.random() * tileCount)`). -/
def spawnFood (snake : List (ℤ × ℤ)) (rnd : ℕ → ℤ × ℤ) (cur : ℤ × ℤ) : ℤ × ℤ :=
  spawnFoodGo (snakeOccupies snake) rnd 0 100 cur

/-- Arrow-key inputs routed to `SnakeGame.handleKeyDown`. -/
inductive SnakeKey | up | down | left | right
  deriving Repr, DecidableEq

/-- The direction requested by an arrow key (grid y grows downward). -/
def requestedDir : SnakeKey → ℤ × ℤ
  | SnakeKey.up => (0, -1)
  | SnakeKey.down => (0, 1)
  | SnakeKey.left => (-1, 0)
  | SnakeKey.right => (1, 0)

/-- SnakeGame.handleKeyDown: buffer the requested direction in
`nextDirection`, unless it is the reversal of the current movement direction
(each branch guards on the current `direction` component). -/
def snakeHandleKeyDown (s : SnakeState) : SnakeKey → SnakeState
  | SnakeKey.up =>
      if s.direction.2 ≠ 1 then { s with nextDirection := (0, -1) } else s
  | SnakeKey.down =>
      if s.direction.2 ≠ -1 then { s with nextDirection := (0, 1) } else s
  | SnakeKey.left =>
      if s.direction.1 ≠ 1 then { s with nextDirection := (-1, 0) } else s
  | SnakeKey.right =>
      if s.direction.1 ≠ -1 then { s with nextDirection := (1, 0) } else s

/-- BaseGame.triggerGameOver as it acts on the Snake state: `stop()` clears
`isRunning`, then `controller.gameOver(this.score)` reports the score. -/
def snakeTriggerGameOver (s : SnakeState) : SnakeState :=
  { s with isRunning := false,
           notifications := s.notifications + 1,
           reportedScores := s.score :: s.reportedScores }

/-- One movement step of `SnakeGame.update` (the body that runs once the
move-interval timer has elapsed). `rnd` feeds `spawnFood` if food is eaten. -/
def snakeStep (rnd : ℕ → ℤ × ℤ) (s : SnakeState) : SnakeState :=
  -- Apply queued direction change
  let s := { s with direction := s.nextDirection }
  let head := s.snake.headD (0, 0)
  let newHead : ℤ × ℤ := (head.1 + s.direction.1, head.2 + s.direction.2)
  -- Check wall collision
  if newHead.1 < 0 ∨ newHead.1 ≥ s.tileX ∨ newHead.2 < 0 ∨ newHead.2 ≥ s.tileY then
    snakeTriggerGameOver s
  -- Check self collision
  else if snakeOccupies s.snake newHead then
    snakeTriggerGameOver s
  else
    -- Move snake
    let s := { s with snake := newHead :: s.snake }
    -- Check food collision
    let s :=
      if newHead = s.food then
        { s with score := addScore s.score 10,
                 growPending := s.growPending + 1,
                 food := spawnFood s.snake rnd s.food,
                 moveInterval := max 50 (s.moveInterval - 2) }
      else s
    -- Remove tail unless growing
    if s.growPending > 0 then { s with growPending := s.growPending - 1 }
    else { s with snake := s.snake.dropLast }

/-- The head cell the next step will move into: current head plus the buffered
direction (which `update` copies into `direction` before moving). -/
def snakeNewHead (s : SnakeState) : ℤ × ℤ :=
  ((s.snake.headD (0, 0)).1 + s.nextDirection.1,
   (s.snake.headD (0, 0)).2 + s.nextDirection.2)

/-- The wall-collision guard of `SnakeGame.update`, evaluated on the head cell
the next step will move into. -/
def snakeWallOut (s : SnakeState) : Prop :=
  (snakeNewHead s).1 < 0 ∨ (snakeNewHead s).1 ≥ s.tileX ∨
  (snakeNewHead s).2 < 0 ∨ (snakeNewHead s).2 ≥ s.tileY

instance (s : SnakeState) : Decidable (snakeWallOut s) := by
  unfold snakeWallOut; infer_instance

/-! ## Tetris (src/arcade-simulator/js/tetris.js, class TetrisGame)

The board is a 20×10 grid stored top row first; a cell is `0` when empty and a
nonzero colour code when filled (the source stores a colour string, whose only
observable property in the game logic is being truthy). Piece coordinates
`currentX`/`currentY` are integers and may be negative (wall-kick candidates,
cells above the board). -/

/-- Number of board columns (`this.cols`). -/
def tetrisCols : ℕ := 10

/-- Number of board rows (`this.rows`). -/
def tetrisRows : ℕ := 20

/-- The seven tetromino types. -/
inductive PieceType | I | O | T | S | Z | J | L
  deriving Repr, DecidableEq

/-- Piece shape matrices (`this.pieces[type].shape[rotation]`), transcribed from
the source. The rotation index maintained by the game is always in `0..3`
(`(r + 1) % 4`); an out-of-range index yields the empty shape. -/
def pieceShape : PieceType → ℕ → List (List ℕ)
  | PieceType.I, 0 => [[0,0,0,0], [1,1,1,1], [0,0,0,0], [0,0,0,0]]
  | PieceType.I, 1 => [[0,0,1,0], [0,0,1,0], [0,0,1,0], [0,0,1,0]]
  | PieceType.I, 2 => [[0,0,0,0], [0,0,0,0], [1,1,1,1], [0,0,0,0]]
  | PieceType.I, 3 => [[0,1,0,0], [0,1,0,0], [0,1,0,0], [0,1,0,0]]
  | PieceType.O, 0 => [[1,1], [1,1]]
  | PieceType.O, 1 => [[1,1], [1,1]]
  | PieceType.O, 2 => [[1,1], [1,1]]
  | PieceType.O, 3 => [[1,1], [1,1]]
  | PieceType.T, 0 => [[0,1,0], [1,1,1], [0,0,0]]
  | PieceType.T, 1 => [[0,1,0], [0,1,1], [0,1,0]]
  | PieceType.T, 2 => [[0,0,0], [1,1,1], [0,1,0]]
  | PieceType.T, 3 => [[0,1,0], [1,1,0], [0,1,0]]
  | PieceType.S, 0 => [[0,1,1], [1,1,0], [0,0,0]]
  | PieceType.S, 1 => [[0,1,0], [0,1,1], [0,0,1]]
  | PieceType.S, 2 => [[0,0,0], [0,1,1], [1,1,0]]
  | PieceType.S, 3 => [[1,0,0], [1,1,0], [0,1,0]]
  | PieceType.Z, 0 => [[1,1,0], [0,1,1], [0,0,0]]
  | PieceType.Z, 1 => [[0,0,1], [0,1,1], [0,1,0]]
  | PieceType.Z, 2 => [[0,0,0], [1,1,0], [0,1,1]]
  | PieceType.Z, 3 => [[0,1,0], [1,1,0], [1,0,0]]
  | PieceType.J, 0 => [[1,0,0], [1,1,1], [0,0,0]]
  | PieceType.J, 1 => [[0,1,1], [0,1,0], [0,1,0]]
  | PieceType.J, 2 => [[0,0,0], [1,1,1], [0,0,1]]
  | PieceType.J, 3 => [[0,1,0], [0,1,0], [1,1,0]]
  | PieceType.L, 0 => [[0,0,1], [1,1,1], [0,0,0]]
  | PieceType.L, 1 => [[0,1,0], [0,1,0], [0,1,1]]
  | PieceType.L, 2 => [[0,0,0], [1,1,1], [1,0,0]]
  | PieceType.L, 3 => [[1,1,0], [0,1,0], [0,1,0]]
  | _, _ => []

/-- Nonzero colour code written into the board for each piece type (standing in
for the colour string of the source, which only matters as a truthy value). -/
def pieceColor : PieceType → ℕ
  | PieceType.I => 1
  | PieceType.O => 2
  | PieceType.T => 3
  | PieceType.S => 4
  | PieceType.Z => 5
  | PieceType.J => 6
  | PieceType.L => 7

/-- State of the Tetris game (the fields driving the claims; timers and the
next-piece preview are orthogonal to the modelled operations). -/
structure TetrisState where
  board : List (List ℕ)
  currentPiece : PieceType
  currentX : ℤ
  currentY : ℤ
  currentRotation : ℕ
  level : ℕ
  lines : ℕ
  dropInterval : ℕ
  score : ℕ
  isRunning : Bool
  notifications : ℕ
  reportedScores : List ℕ
  deriving Repr, DecidableEq

/-- Read `this.board[y][x]` (0 outside the stored grid; the source only reads
in-bounds indices). -/
def boardCell (board : List (List ℕ)) (y x : ℕ) : ℕ :=
  (board.getD y []).getD x 0

/-- Write `this.board[y][x] = v`. -/
def boardSet (board : List (List ℕ)) (y x : ℕ) (v : ℕ) : List (List ℕ) :=
  board.set y ((board.getD y []).set x v)

/-- The occupied cells of a shape matrix as `(row, col)` index pairs, in the
row-major order of the source's nested `for` loops. -/
def shapeCells (p : PieceType) (rot : ℕ) : List (ℕ × ℕ) :=
  ((pieceShape p rot).enum.flatMap fun rc =>
    (rc.2.enum.filterMap fun cc =>
      if cc.2 ≠ 0 then some (rc.1, cc.1) else none))

/-- TetrisGame.checkCollision: the piece `p` at `(x, y)` in rotation `rot`
collides when some occupied cell leaves the side/bottom bounds or lands on a
filled board cell (cells above the top, `newY < 0`, are only bounds-checked
horizontally). -/
def checkCollision (board : List (List ℕ)) (p : PieceType) (x y : ℤ) (rot : ℕ) : Bool :=
  (shapeCells p rot).any fun rc =>
    let newX := x + (rc.2 : ℤ)
    let newY := y + (rc.1 : ℤ)
    newX < 0 ∨ newX ≥ (tetrisCols : ℤ) ∨ newY ≥ (tetrisRows : ℤ) ∨
      (newY ≥ 0 ∧ boardCell board newY.toNat newX.toNat ≠ 0)

/-- The wall-kick search of `TetrisGame.rotate`: the first offset of
`[-1, 1, -2, 2]` at which the piece in the next rotation state does not
collide, if any. -/
def rotateKick (s : TetrisState) : Option ℤ :=
  [-1, 1, -2, 2].find? fun k =>
    ¬ checkCollision s.board s.currentPiece (s.currentX + k) s.currentY
        ((s.currentRotation + 1) % 4)

/-- TetrisGame.rotate: try the next rotation index; on collision retry the
wall-kick offsets `[-1, 1, -2, 2]` in order, shifting `currentX` by the first
offset that fits; if none fits the piece is left unchanged. -/
def tetrisRotate (s : TetrisState) : TetrisState :=
  let newRotation := (s.currentRotation + 1) % 4
  if ¬ checkCollision s.board s.currentPiece s.currentX s.currentY newRotation then
    { s with currentRotation := newRotation }
  else
    match rotateKick s with
    | some k => { s with currentX := s.currentX + k, currentRotation := newRotation }
    | none => s

/-- One write of the `TetrisGame.lockPiece` loop body: the occupied shape cell
`rc = (row, col)` is written at board position
`(currentY + row, currentX + col)`, guarded by
`0 ≤ boardY < rows && 0 ≤ boardX < cols`; an out-of-range position (in
particular a negative row above the board) is silently skipped. -/
def lockCell (p : PieceType) (cx cy : ℤ) (b : List (List ℕ)) (rc : ℕ × ℕ) : List (List ℕ) :=
  let boardY := cy + (rc.1 : ℤ)
  let boardX := cx + (rc.2 : ℤ)
  if 0 ≤ boardY ∧ boardY < (tetrisRows : ℤ) ∧ 0 ≤ boardX ∧ boardX < (tetrisCols : ℤ) then
    boardSet b boardY.toNat boardX.toNat (pieceColor p)
  else b

/-- The board-writing loop of `TetrisGame.lockPiece`: fold `lockCell` over the
occupied cells of the current shape. -/
def lockBoard (s : TetrisState) : List (List ℕ) :=
  (shapeCells s.currentPiece s.currentRotation).foldl
    (lockCell s.currentPiece s.currentX s.currentY) s.board

/-- The board position `(y, x)` is one of the current piece's occupied cells. -/
def pieceCovers (s : TetrisState) (y x : ℕ) : Prop :=
  ∃ rc ∈ shapeCells s.currentPiece s.currentRotation,
    (y : ℤ) = s.currentY + (rc.1 : ℤ) ∧ (x : ℤ) = s.currentX + (rc.2 : ℤ)

instance (s : TetrisState) (y x : ℕ) : Decidable (pieceCovers s y x) := by
  unfold pieceCovers; infer_instance

/-- A row is complete when every cell is nonzero
(`this.board[y].every(cell => cell !== 0)`). -/
def isFullRow (row : List ℕ) : Bool := row.all (fun c => c ≠ 0)

/-- The board transformation of `TetrisGame.clearLines`: the bottom-up
splice/unshift scan removes every complete row exactly once (after a removal it
re-checks the same index, which now holds the row shifted down from above) and
pushes one empty row on top per removal; the freshly pushed empty rows are
never complete, so the scan performs exactly this: keep the incomplete rows in
order and prepend one empty row per removed row. -/
def clearLinesBoard (board : List (List ℕ)) : List (List ℕ) × ℕ :=
  let kept := board.filter (fun r => ¬ isFullRow r)
  let k := board.length - kept.length
  (List.replicate k (List.replicate tetrisCols 0) ++ kept, k)

/-- TetrisGame.clearLines: remove complete rows, then (when at least one row
was cleared) add the cleared rows to the running total, award
`[0,100,300,500,800][linesCleared] * this.level` points (the level read before
the level-up check), recompute the level as `floor(lines / 10) + 1`, and on a
level increase reset the drop interval to `max(100, 1000 - (level-1)*100)`. -/
def tetrisClearLines (s : TetrisState) : TetrisState :=
  let res := clearLinesBoard s.board
  let board' := res.1
  let linesCleared := res.2
  if linesCleared > 0 then
    let lines' := s.lines + linesCleared
    let points := [0, 100, 300, 500, 800].getD linesCleared 0 * s.level
    let score' := addScore s.score points
    let newLevel := lines' / 10 + 1
    if newLevel > s.level then
      { s with board := board', lines := lines', score := score',
               level := newLevel,
               dropInterval := max 100 (1000 - (newLevel - 1) * 100) }
    else
      { s with board := board', lines := lines', score := score' }
  else
    { s with board := board' }

/-! ## Space Invaders (src/unnamed/part_003, class SpaceInvadersGame)

Positions and sizes are rationals (the alien speed grows by 0.5 per wave).
The player-fire cooldown (`canShoot`/`setTimeout`) and the render-only
animation counters (`alienFrame`, `lastFrameTime`) are not modelled; neither
participates in the claims nor influences the modelled fields. -/

/-- A rectangle entity (player, alien body, bullet, shield block all collide as
axis-aligned rectangles). -/
structure Rect where
  x : ℚ
  y : ℚ
  width : ℚ
  height : ℚ
  deriving Repr, DecidableEq, Inhabited

/-- SpaceInvadersGame.checkCollision: axis-aligned rectangle overlap. -/
def rectsCollide (a b : Rect) : Bool :=
  a.x < b.x + b.width ∧ a.x + a.width > b.x ∧
  a.y < b.y + b.height ∧ a.y + a.height > b.y

/-- An alien of the fleet. -/
structure Alien where
  rect : Rect
  type : ℕ
  alive : Bool
  points : ℕ
  deriving Repr, DecidableEq, Inhabited

/-- A destructible shield block. -/
structure Block where
  rect : Rect
  health : ℤ
  deriving Repr, DecidableEq, Inhabited

/-- A shield: the source stores `{ blocks }` objects. -/
structure Shield where
  blocks : List Block
  deriving Repr, DecidableEq

/-- State of the Space Invaders game. -/
structure SIState where
  canvasW : ℚ
  canvasH : ℚ
  player : Rect
  playerSpeed : ℚ
  aliens : List Alien
  alienDirection : ℚ
  alienSpeed : ℚ
  alienMoveTimer : ℕ
  alienMoveInterval : ℕ
  playerBullets : List Rect
  alienBullets : List Rect
  shields : List Shield
  wave : ℕ
  keysLeft : Bool
  keysRight : Bool
  score : ℕ
  isRunning : Bool
  notifications : ℕ
  reportedScores : List ℕ
  deriving Repr, DecidableEq

/-- Fleet geometry constants of the constructor
(`alienRows/alienCols/alienWidth/alienHeight/alienPadding/alienDropAmount`). -/
def alienRows : ℕ := 5

/-- Fleet columns (`this.alienCols`). -/
def alienCols : ℕ := 8

/-- Alien sprite width (`this.alienWidth`). -/
def alienWidth : ℚ := 30

/-- Alien sprite height (`this.alienHeight`). -/
def alienHeight : ℚ := 24

/-- Gap between aliens (`this.alienPadding`). -/
def alienPadding : ℚ := 10

/-- Vertical drop on edge contact (`this.alienDropAmount`). -/
def alienDropAmount : ℚ := 20

/-- Player bullet speed (`this.bulletSpeed`). -/
def bulletSpeed : ℚ := 8

/-- Alien bullet speed (`this.alienBulletSpeed`). -/
def alienBulletSpeed : ℚ := 4

/-- SpaceInvadersGame.createAliens: the fresh 5×8 fleet, all alive, laid out
row-major from `(startX, 50)`; row `r` aliens are worth `(5 - r) * 10` points
and have type 2 (row 0), 1 (rows 1–2) or 0 (rows 3–4). -/
def createAliens (canvasW : ℚ) : List Alien :=
  let startX := (canvasW - (alienCols * (alienWidth + alienPadding))) / 2
  let startY : ℚ := 50
  (List.range alienRows).flatMap fun (row : ℕ) =>
    (List.range alienCols).map fun (col : ℕ) =>
      { rect := { x := startX + (col : ℚ) * (alienWidth + alienPadding),
                  y := startY + (row : ℚ) * (alienHeight + alienPadding),
                  width := alienWidth, height := alienHeight },
        type := if row < 1 then 2 else if row < 3 then 1 else 0,
        alive := true,
        points := (alienRows - row) * 10 }

/-- SpaceInvadersGame.createShields: four shields spaced across the canvas,
each a 10×7 grid of 5×5 blocks of health 3 (shieldWidth 50, shieldHeight 35,
blockSize 5) with a 4×2 arch cut from the bottom centre. -/
def createShields (canvasW canvasH : ℚ) : List Shield :=
  let shieldCount : ℕ := 4
  let shieldWidth : ℚ := 50
  let blockSize : ℚ := 5
  let spacing := canvasW / (shieldCount + 1)
  (List.range shieldCount).map fun (i : ℕ) =>
    let shieldX := spacing * ((i : ℚ) + 1) - shieldWidth / 2
    let shieldY := canvasH - 100
    let centerX : ℕ := 5  -- shieldWidth / 2 / blockSize
    { blocks :=
        (List.range 7).flatMap fun (y : ℕ) =>  -- y < shieldHeight / blockSize = 7
          (List.range 10).filterMap fun (x : ℕ) =>  -- x < shieldWidth / blockSize = 10
            let isArch := y ≥ 7 - 2 ∧ x + 2 ≥ centerX ∧ x ≤ centerX + 1
            if isArch then none
            else some { rect := { x := shieldX + (x : ℚ) * blockSize,
                                  y := shieldY + (y : ℚ) * blockSize,
                                  width := blockSize, height := blockSize },
                        health := 3 } }

/-- BaseGame.triggerGameOver acting on the Space Invaders state: `stop()`
clears `isRunning`, then `controller.gameOver(this.score)` reports the score.
There is no guard against repeated invocation. -/
def siTriggerGameOver (s : SIState) : SIState :=
  { s with isRunning := false,
           notifications := s.notifications + 1,
           reportedScores := s.score :: s.reportedScores }

/-- SpaceInvadersGame.alienShoot: if any alien is alive, a uniformly chosen
living alien fires a bullet from below its centre. `idx` is the random index
into the living-alien list (the source draws `Math.floor(random * length)`,
always in range; reduction mod the length keeps the model total). -/
def alienShoot (idx : ℕ) (s : SIState) : SIState :=
  let aliveAliens := s.aliens.filter (fun a => a.alive)
  if aliveAliens.isEmpty then s
  else
    let shooter := (aliveAliens.getD (idx % aliveAliens.length) (aliveAliens.getD 0 default)).rect
    { s with alienBullets := s.alienBullets ++
        [{ x := shooter.x + shooter.width / 2 - 2, y := shooter.y + shooter.height,
           width := 4, height := 12 }] }

/-- The movement loop of `SpaceInvadersGame.moveAliens`: walk the fleet in
order; dead aliens are skipped; when dropping, each alien moves down by the
drop amount and, if it then reaches the player's row, the loop stops there
(`return` after `triggerGameOver`), leaving the remaining aliens unmoved.
Returns the updated fleet and whether the loop aborted with game over. -/
def moveAliensLoop (drop : Bool) (dx dropAmt py : ℚ) : List Alien → List Alien × Bool
  | [] => ([], false)
  | a :: rest =>
      if ¬ a.alive then
        let r := moveAliensLoop drop dx dropAmt py rest
        (a :: r.1, r.2)
      else if drop then
        let a' := { a with rect := { a.rect with y := a.rect.y + dropAmt } }
        if a'.rect.y + a'.rect.height ≥ py then (a' :: rest, true)
        else
          let r := moveAliensLoop drop dx dropAmt py rest
          (a' :: r.1, r.2)
      else
        let r := moveAliensLoop drop dx dropAmt py rest
        ({ a with rect := { a.rect with x := a.rect.x + dx } } :: r.1, r.2)

/-- SpaceInvadersGame.moveAliens: if any living alien would cross a side edge,
the whole fleet drops and the direction reverses; a fleet member reaching the
player's row triggers game over mid-loop (skipping the reversal). -/
def moveAliens (s : SIState) : SIState :=
  let shouldDrop := s.aliens.any fun a =>
    a.alive ∧
      (a.rect.x + s.alienSpeed * s.alienDirection ≤ 0 ∨
       a.rect.x + s.alienSpeed * s.alienDirection + a.rect.width ≥ s.canvasW)
  let r := moveAliensLoop shouldDrop (s.alienSpeed * s.alienDirection)
    alienDropAmount s.player.y s.aliens
  if r.2 then siTriggerGameOver { s with aliens := r.1 }
  else
    let s := { s with aliens := r.1 }
    if shouldDrop then { s with alienDirection := -s.alienDirection } else s

/-- SpaceInvadersGame.checkShieldCollision: scan the shields in order; within a
shield the blocks are scanned from the highest index down (the source loops
`j` backwards); the first colliding block loses one health, the bullet at
`bulletIndex` is spliced out of its array, and a block at zero health is
removed; only the first hit is processed (`return`). Returns the updated
shields and bullet array. -/
def checkShieldCollision (bullet : Rect) (bulletIndex : ℕ) :
    List Shield → List Rect → List Shield × List Rect
  | [], arr => ([], arr)
  | sh :: rest, arr =>
      match ((List.range sh.blocks.length).reverse.find? fun j =>
          rectsCollide bullet (sh.blocks.getD j default).rect) with
      | some j =>
          let blk := sh.blocks.getD j default
          let blk' := { blk with health := blk.health - 1 }
          let blocks' :=
            if blk'.health ≤ 0 then (sh.blocks.set j blk').eraseIdx j
            else sh.blocks.set j blk'
          ({ blocks := blocks' } :: rest, arr.eraseIdx bulletIndex)
      | none =>
          let r := checkShieldCollision bullet bulletIndex rest arr
          (sh :: r.1, r.2)

/-- Count of living aliens (`this.aliens.filter(a => a.alive).length`). -/
def countAlive (aliens : List Alien) : ℕ :=
  (aliens.filter (fun a => a.alive)).length

/-- The body of one iteration of the `updatePlayerBullets` loop at index `i`
(the source iterates `i` from the end of the array down to 0, splicing in
place): advance the bullet, drop it when off screen; otherwise test the living
aliens in order — on a hit kill the alien, splice the bullet, score its points
and re-derive the fleet move interval from the kill count — and in either case
run the shield test (the source runs it even when the bullet was already
spliced by the alien hit, against whichever bullet now sits at index `i`). -/
def playerBulletIter (s : SIState) (i : ℕ) : SIState :=
  match s.playerBullets.get? i with
  | none => s
  | some b =>
      let b' := { b with y := b.y - bulletSpeed }
      let s := { s with playerBullets := s.playerBullets.set i b' }
      if b'.y + b'.height < 0 then
        { s with playerBullets := s.playerBullets.eraseIdx i }
      else
        let s :=
          match (List.range s.aliens.length).find? (fun j =>
              (s.aliens.getD j default).alive ∧
              rectsCollide b' (s.aliens.getD j default).rect) with
          | some j =>
              let a := s.aliens.getD j default
              let aliens' := s.aliens.set j { a with alive := false }
              let s := { s with aliens := aliens', playerBullets := s.playerBullets.eraseIdx i, score := addScore s.score a.points }
              let interval' := max 100 (1000 - (s.aliens.length - countAlive s.aliens) * 20)
              { s with alienMoveInterval := interval' }
          | none => s
        let r := checkShieldCollision b' i s.shields s.playerBullets
        { s with shields := r.1, playerBullets := r.2 }

/-- Run the `updatePlayerBullets` loop from index `i` down to 0. -/
def playerBulletsGo (s : SIState) : ℕ → SIState
  | 0 => playerBulletIter s 0
  | i + 1 => playerBulletsGo (playerBulletIter s (i + 1)) i

/-- SpaceInvadersGame.updatePlayerBullets. -/
def updatePlayerBullets (s : SIState) : SIState :=
  if s.playerBullets.isEmpty then s
  else playerBulletsGo s (s.playerBullets.length - 1)

/-- The body of one iteration of the `updateAlienBullets` loop at index `i`:
advance the bullet, drop it when off screen; if it hits the player, trigger
game over and abort the whole loop (the source `return`s from the function);
otherwise run the shield test. The `Bool` reports the abort. -/
def alienBulletIter (s : SIState) (i : ℕ) : SIState × Bool :=
  match s.alienBullets.get? i with
  | none => (s, false)
  | some b =>
      let b' := { b with y := b.y + alienBulletSpeed }
      let s := { s with alienBullets := s.alienBullets.set i b' }
      if b'.y > s.canvasH then
        ({ s with alienBullets := s.alienBullets.eraseIdx i }, false)
      else if rectsCollide b' s.player then
        (siTriggerGameOver s, true)
      else
        let r := checkShieldCollision b' i s.shields s.alienBullets
        ({ s with shields := r.1, alienBullets := r.2 }, false)

/-- Run the `updateAlienBullets` loop from index `i` down to 0, stopping early
on a player hit. -/
def alienBulletsGo (s : SIState) : ℕ → SIState
  | 0 => (alienBulletIter s 0).1
  | i + 1 =>
      let r := alienBulletIter s (i + 1)
      if r.2 then r.1 else alienBulletsGo r.1 i

/-- SpaceInvadersGame.updateAlienBullets. -/
def updateAlienBullets (s : SIState) : SIState :=
  if s.alienBullets.isEmpty then s
  else alienBulletsGo s (s.alienBullets.length - 1)

/-- SpaceInvadersGame.nextWave: advance the wave counter, speed the fleet up by
0.5, reset the move interval to `max(200, 1000 - wave*100)` (with the already
incremented wave), build a fresh fleet, clear both bullet arrays and award the
`100 * wave` clear bonus. The shields are left untouched. -/
def nextWave (s : SIState) : SIState :=
  let wave' := s.wave + 1
  { s with wave := wave',
           alienSpeed := s.alienSpeed + 1/2,
           alienMoveInterval := max 200 (1000 - wave' * 100),
           aliens := createAliens s.canvasW,
           alienDirection := 1,
           alienMoveTimer := 0,
           playerBullets := [],
           alienBullets := [],
           score := addScore s.score (100 * wave') }

/-- The player-movement statements at the top of `SpaceInvadersGame.update`:
each held arrow key moves the player by its speed while inside the canvas. -/
def siMovePlayer (s : SIState) : SIState :=
  let s := if s.keysLeft ∧ s.player.x > 0 then
      { s with player := { s.player with x := s.player.x - s.playerSpeed } } else s
  if s.keysRight ∧ s.player.x < s.canvasW - s.player.width then
      { s with player := { s.player with x := s.player.x + s.playerSpeed } } else s

/-- The fleet-timer statements of `SpaceInvadersGame.update`: the move timer
grows by the 16 ms frame allowance and, when it reaches the move interval, is
reset and the fleet moves. -/
def siAdvanceFleet (s : SIState) : SIState :=
  let s := { s with alienMoveTimer := s.alienMoveTimer + 16 }
  if s.alienMoveTimer ≥ s.alienMoveInterval then
    moveAliens { s with alienMoveTimer := 0 } else s

/-- SpaceInvadersGame.update: move the player by held keys, advance the fleet
move timer and move the fleet when it expires, let a random living alien fire
when the 2% roll succeeds (`fireRoll`), advance both bullet populations, and
start the next wave once every alien is dead. A game over triggered inside
`moveAliens` or `updateAlienBullets` only returns from that helper: the
remainder of `update` still runs. -/
def siUpdate (fireRoll : Bool) (shooterIdx : ℕ) (s : SIState) : SIState :=
  let s := siMovePlayer s
  let s := siAdvanceFleet s
  let s := if fireRoll then alienShoot shooterIdx s else s
  let s := updatePlayerBullets s
  let s := updateAlienBullets s
  if s.aliens.all (fun a => ¬ a.alive) then nextWave s else s

/-! ## Breakout, brick collision (src/unnamed/part_003, class BreakoutGame)

The brick-collision pass uses only field arithmetic and comparisons, so it is
modelled exactly over `ℚ`. The bricks are stored as `this.bricks[c][r]`
(column-major); `checkBrickCollision` iterates `c` outer, `r` inner, which is
precisely the order of the flattened column-major list used here. -/

/-- The Breakout ball (`this.ball`). -/
structure BallQ where
  x : ℚ
  y : ℚ
  radius : ℚ
  dx : ℚ
  dy : ℚ
  deriving Repr, DecidableEq

/-- One brick (`this.bricks[c][r]`): `status` is 1 while active, 0 once
destroyed. -/
structure BrickQ where
  x : ℚ
  y : ℚ
  status : ℕ
  points : ℕ
  deriving Repr, DecidableEq

/-- The Breakout state needed by the brick pass: the bricks are kept as the
flattened column-major list scanned by `checkBrickCollision`. -/
structure BreakoutBrickState where
  ball : BallQ
  bricks : List BrickQ
  brickWidth : ℚ
  brickHeight : ℚ
  score : ℕ
  deriving Repr, DecidableEq

/-- The per-brick overlap test of `checkBrickCollision`. -/
def brickOverlap (ball : BallQ) (bw bh : ℚ) (b : BrickQ) : Bool :=
  ball.x + ball.radius > b.x ∧ ball.x - ball.radius < b.x + bw ∧
  ball.y + ball.radius > b.y ∧ ball.y - ball.radius < b.y + bh

/-- Horizontal penetration depth `min(overlapLeft, overlapRight)`. -/
def minOverlapX (ball : BallQ) (bw : ℚ) (b : BrickQ) : ℚ :=
  min (ball.x + ball.radius - b.x) (b.x + bw - (ball.x - ball.radius))

/-- Vertical penetration depth `min(overlapTop, overlapBottom)`. -/
def minOverlapY (ball : BallQ) (bh : ℚ) (b : BrickQ) : ℚ :=
  min (ball.y + ball.radius - b.y) (b.y + bh - (ball.y - ball.radius))

/-- The ball after bouncing off brick `b`: reflect `dx` when the horizontal
penetration is strictly smaller, otherwise reflect `dy`. -/
def bounceBall (ball : BallQ) (bw bh : ℚ) (b : BrickQ) : BallQ :=
  if minOverlapX ball bw b < minOverlapY ball bh b then { ball with dx := -ball.dx }
  else { ball with dy := -ball.dy }

/-- The scan of `BreakoutGame.checkBrickCollision`: find the first active brick
in scan order that overlaps the ball; destroy it (status 0) and return the
updated brick list together with the brick hit. Later bricks are not examined
(the source `return`s), so at most one brick is destroyed per frame. -/
def scanBricks (ball : BallQ) (bw bh : ℚ) : List BrickQ → Option (List BrickQ × BrickQ)
  | [] => none
  | b :: rest =>
      if b.status = 1 ∧ brickOverlap ball bw bh b then
        some ({ b with status := 0 } :: rest, b)
      else
        match scanBricks ball bw bh rest with
        | some r => some (b :: r.1, r.2)
        | none => none

/-- BreakoutGame.checkBrickCollision: on a hit, reflect the ball along the axis
of smaller penetration, destroy the brick and score its points; otherwise the
state is unchanged. -/
def checkBrickCollision (s : BreakoutBrickState) : BreakoutBrickState :=
  match scanBricks s.ball s.brickWidth s.brickHeight s.bricks with
  | some r =>
      { s with bricks := r.1,
               ball := bounceBall s.ball s.brickWidth s.brickHeight r.2,
               score := addScore s.score r.2.points }
  | none => s

/-- Number of active bricks. -/
def countActiveBricks (bricks : List BrickQ) : ℕ :=
  (bricks.filter (fun b => b.status = 1)).length

/-! ## Breakout, paddle collision (src/unnamed/part_003, class BreakoutGame)

`checkPaddleCollision` computes the bounce angle with `Math.sin`/`Math.cos`,
so this fragment is modelled over `ℝ` with exact trigonometry; the claim about
it is stated up to that idealisation (the source's IEEE doubles agree with it
to floating-point tolerance). -/

/-- The Breakout ball over `ℝ` for the trigonometric paddle bounce. -/
structure BallR where
  x : ℝ
  y : ℝ
  radius : ℝ
  dx : ℝ
  dy : ℝ

/-- The Breakout paddle (`this.paddle`). -/
structure PaddleR where
  x : ℝ
  y : ℝ
  width : ℝ
  height : ℝ

/-- The guard of `checkPaddleCollision`: ball moving downward and overlapping
the paddle band horizontally and vertically. -/
def paddleHit (ball : BallR) (paddle : PaddleR) : Prop :=
  ball.dy > 0 ∧
  ball.y + ball.radius ≥ paddle.y ∧
  ball.y - ball.radius ≤ paddle.y + paddle.height ∧
  ball.x ≥ paddle.x ∧
  ball.x ≤ paddle.x + paddle.width

/-- BreakoutGame.checkPaddleCollision: on a paddle hit, map the impact offset
across the paddle linearly to an angle in `±0.35π` (≈ ±63°) from vertical and
relaunch the ball upward at the preserved speed magnitude, clamping it above
the paddle. -/
noncomputable def checkPaddleCollision (ball : BallR) (paddle : PaddleR) : BallR :=
  haveI : Decidable (paddleHit ball paddle) := Classical.propDecidable _
  if paddleHit ball paddle then
    let hitPos := (ball.x - paddle.x) / paddle.width
    let angle := (hitPos - 0.5) * Real.pi * 0.7
    let speed := Real.sqrt (ball.dx * ball.dx + ball.dy * ball.dy)
    { ball with dx := Real.sin angle * speed,
                dy := -Real.cos angle * speed,
                y := paddle.y - ball.radius }
  else ball

/-! ## Concrete states for witnesses and counterexamples -/

/-- A Space Invaders state (canvas 800×600) in which the same update frame
meets two game-ending conditions: the fleet move timer is about to expire with
a living alien at the left edge one drop away from the player's row, and an
alien bullet is one frame away from hitting the player. -/
def siTwoFatal : SIState :=
  { canvasW := 800, canvasH := 600,
    player := ⟨380, 560, 40, 20⟩, playerSpeed := 6,
    aliens := [⟨⟨1, 520, 30, 24⟩, 0, true, 10⟩],
    alienDirection := -1, alienSpeed := 1,
    alienMoveTimer := 984, alienMoveInterval := 1000,
    playerBullets := [], alienBullets := [⟨390, 550, 4, 12⟩],
    shields := [], wave := 1, keysLeft := false, keysRight := false,
    score := 0, isRunning := true, notifications := 0, reportedScores := [] }

/-- A Space Invaders state whose whole fleet is dead and whose shields are worn
down to a single damaged block: the next update starts wave 2. -/
def siWaveEnd : SIState :=
  { canvasW := 800, canvasH := 600,
    player := ⟨380, 560, 40, 20⟩, playerSpeed := 6,
    aliens := [⟨⟨100, 100, 30, 24⟩, 0, false, 10⟩],
    alienDirection := 1, alienSpeed := 1,
    alienMoveTimer := 0, alienMoveInterval := 1000,
    playerBullets := [], alienBullets := [],
    shields := [⟨[⟨⟨390, 500, 5, 5⟩, 1⟩]⟩], wave := 1,
    keysLeft := false, keysRight := false,
    score := 0, isRunning := true, notifications := 0, reportedScores := [] }

/-- A 20×25 Snake state about to eat the food one cell ahead of its head. -/
def snakeEatState : SnakeState :=
  { tileX := 20, tileY := 25,
    snake := [(5, 5), (4, 5), (3, 5)],
    direction := (1, 0), nextDirection := (1, 0),
    food := (6, 5), growPending := 0, moveInterval := 120,
    score := 0, isRunning := true, notifications := 0, reportedScores := [] }

/-- An adversarial food sampler that always returns the cell the snake's head
is about to occupy, defeating every one of the 100 spawn attempts. -/
def headSampler : ℕ → ℤ × ℤ := fun _ => (6, 5)

/-- A benign food sampler that always returns the free corner cell. -/
def cornerSampler : ℕ → ℤ × ℤ := fun _ => (0, 0)

/-- A 20×25 Snake state whose next step runs the head into the right wall. -/
def snakeAtWall : SnakeState :=
  { tileX := 20, tileY := 25,
    snake := [(19, 12), (18, 12), (17, 12)],
    direction := (1, 0), nextDirection := (1, 0),
    food := (3, 3), growPending := 0, moveInterval := 120,
    score := 70, isRunning := true, notifications := 0, reportedScores := [] }

/-- A Snake state currently moving down (for the reversal-rejection witness). -/
def snakeMovingDown : SnakeState :=
  { tileX := 20, tileY := 25,
    snake := [(5, 6), (5, 5), (5, 4)],
    direction := (0, 1), nextDirection := (0, 1),
    food := (3, 3), growPending := 0, moveInterval := 120,
    score := 0, isRunning := true, notifications := 0, reportedScores := [] }

/-- The empty 20×10 Tetris board. -/
def emptyBoard : List (List ℕ) := List.replicate tetrisRows (List.replicate tetrisCols 0)

/-- A Tetris state holding a vertical I piece whose 4×4 box pokes past the left
wall at `x = -2` (its occupied column is column 0 of the board): rotating to
the horizontal state collides at `x = -2, -3, -1, -4` and first fits at the
`+2` wall kick. -/
def tetrisKickState : TetrisState :=
  { board := emptyBoard, currentPiece := PieceType.I, currentX := -2, currentY := 0,
    currentRotation := 1, level := 1, lines := 0, dropInterval := 1000,
    score := 0, isRunning := true, notifications := 0, reportedScores := [] }

/-- A 20×10 Tetris board whose bottom row is complete. -/
def oneLineBoard : List (List ℕ) :=
  List.replicate 19 (List.replicate 10 0) ++ [List.replicate 10 3]

/-- A Tetris state about to clear the complete bottom row at level 1. -/
def tetrisOneLineState : TetrisState :=
  { board := oneLineBoard, currentPiece := PieceType.T, currentX := 0, currentY := 0,
    currentRotation := 0, level := 1, lines := 0, dropInterval := 1000,
    score := 0, isRunning := true, notifications := 0, reportedScores := [] }

/-- A Tetris state whose T piece straddles the top of the board
(`currentY = -1`): its occupied cell in shape row 0 targets board row −1 and
is discarded by the lock guard. -/
def tetrisLockTopState : TetrisState :=
  { board := emptyBoard, currentPiece := PieceType.T, currentX := 4, currentY := -1,
    currentRotation := 0, level := 1, lines := 0, dropInterval := 1000,
    score := 0, isRunning := true, notifications := 0, reportedScores := [] }

/-- A Breakout state whose ball overlaps the first of two live bricks, deeper
horizontally than vertically. -/
def breakoutHitState : BreakoutBrickState :=
  { ball := ⟨30, 60, 8, 2, 3⟩,
    bricks := [⟨10, 50, 1, 60⟩, ⟨56, 50, 1, 60⟩],
    brickWidth := 45, brickHeight := 18, score := 0 }

/-- A concrete downward-moving ball overlapping the paddle band at the
paddle's exact centre. -/
noncomputable def centreBall : BallR := ⟨40, 565, 8, 0, 5⟩

/-- The concrete paddle under `centreBall` (x 0, width 80, top at y 570). -/
noncomputable def centrePaddle : PaddleR := ⟨0, 570, 80, 12⟩

/-! ## Board-write lemmas for lockPiece -/

theorem boardSet_length (b : List (List ℕ)) (y x v : ℕ) :
    (boardSet b y x v).length = b.length := by
  simp [boardSet]

theorem boardSet_row_length (b : List (List ℕ)) (y x v y' : ℕ) :
    ((boardSet b y x v).getD y' []).length = (b.getD y' []).length := by
  unfold boardSet
  rcases eq_or_ne y' y with rfl | hne
  · rcases Nat.lt_or_ge y' b.length with hlt | hge
    · simp [List.getD_eq_getElem?_getD, List.getElem?_set_self hlt,
        List.getElem?_eq_getElem hlt]
    · simp [List.getD_eq_getElem?_getD, List.getElem?_eq_none,
        (by simpa using hge : b.length ≤ y'), List.length_set]
  · simp [List.getD_eq_getElem?_getD, List.getElem?_set_ne (Ne.symm hne)]

theorem boardCell_boardSet_ne (b : List (List ℕ)) (y x v y' x' : ℕ)
    (h : y' ≠ y ∨ x' ≠ x) :
    boardCell (boardSet b y x v) y' x' = boardCell b y' x' := by
  unfold boardCell boardSet
  rcases eq_or_ne y' y with rfl | hne
  · have hx : x' ≠ x := h.resolve_left (fun hy => hy rfl)
    rcases Nat.lt_or_ge y' b.length with hlt | hge
    · simp [List.getD_eq_getElem?_getD, List.getElem?_set_self hlt,
        List.getElem?_eq_getElem hlt, List.getElem?_set_ne (Ne.symm hx)]
    · simp [List.getD_eq_getElem?_getD, List.getElem?_eq_none,
        (by simpa using hge : b.length ≤ y'), List.length_set]
  · simp [List.getD_eq_getElem?_getD, List.getElem?_set_ne (Ne.symm hne)]

theorem lockCell_length (p : PieceType) (cx cy : ℤ) (b : List (List ℕ)) (rc : ℕ × ℕ) :
    (lockCell p cx cy b rc).length = b.length := by
  unfold lockCell; dsimp only; split
  · exact boardSet_length ..
  · rfl

theorem lockCell_row_length (p : PieceType) (cx cy : ℤ) (b : List (List ℕ))
    (rc : ℕ × ℕ) (y' : ℕ) :
    ((lockCell p cx cy b rc).getD y' []).length = (b.getD y' []).length := by
  unfold lockCell; dsimp only; split
  · exact boardSet_row_length ..
  · rfl

theorem boardCell_lockCell (p : PieceType) (cx cy : ℤ) (b : List (List ℕ))
    (rc : ℕ × ℕ) (y x : ℕ)
    (h : tetrisRows ≤ y ∨ tetrisCols ≤ x ∨
      ¬ ((y : ℤ) = cy + (rc.1 : ℤ) ∧ (x : ℤ) = cx + (rc.2 : ℤ))) :
    boardCell (lockCell p cx cy b rc) y x = boardCell b y x := by
  unfold lockCell
  dsimp only
  split
  · next hg =>
      apply boardCell_boardSet_ne
      have hrows : ((tetrisRows : ℕ) : ℤ) = 20 := by norm_num [tetrisRows]
      have hcols : ((tetrisCols : ℕ) : ℤ) = 10 := by norm_num [tetrisCols]
      rcases h with hy | hx | hne
      · exact Or.inl (by simp only [tetrisRows] at hy hg ⊢; omega)
      · exact Or.inr (by simp only [tetrisCols] at hx hg ⊢; omega)
      · by_cases hyy : y = (cy + (rc.1 : ℤ)).toNat
        · refine Or.inr fun hxx => hne ⟨?_, ?_⟩ <;> omega
        · exact Or.inl hyy
  · rfl

theorem lockFold_length (p : PieceType) (cx cy : ℤ) (cells : List (ℕ × ℕ)) :
    ∀ b : List (List ℕ), (cells.foldl (lockCell p cx cy) b).length = b.length := by
  induction cells with
  | nil => intro b; rfl
  | cons c cs ih =>
      intro b
      rw [List.foldl_cons, ih, lockCell_length]

theorem lockFold_row_length (p : PieceType) (cx cy : ℤ) (cells : List (ℕ × ℕ)) :
    ∀ (b : List (List ℕ)) (y' : ℕ),
      ((cells.foldl (lockCell p cx cy) b).getD y' []).length = (b.getD y' []).length := by
  induction cells with
  | nil => intro b y'; rfl
  | cons c cs ih =>
      intro b y'
      rw [List.foldl_cons, ih, lockCell_row_length]

theorem lockFold_cell (p : PieceType) (cx cy : ℤ) (cells : List (ℕ × ℕ)) :
    ∀ (b : List (List ℕ)) (y x : ℕ),
      (∀ rc ∈ cells, tetrisRows ≤ y ∨ tetrisCols ≤ x ∨
        ¬ ((y : ℤ) = cy + (rc.1 : ℤ) ∧ (x : ℤ) = cx + (rc.2 : ℤ))) →
      boardCell (cells.foldl (lockCell p cx cy) b) y x = boardCell b y x := by
  induction cells with
  | nil => intro b y x _; rfl
  | cons c cs ih =>
      intro b y x h
      rw [List.foldl_cons, ih _ _ _ (fun rc hrc => h rc (List.mem_cons_of_mem c hrc)),
        boardCell_lockCell _ _ _ _ _ _ _ (h c (List.mem_cons_self c cs))]

/-! ## Claim C10 -/

/-- C10: the board-writing loop of `lockPiece` preserves the board's shape (20
rows of 10 cells stay 20 rows of their original lengths) and changes a cell
only at an in-bounds position `0 ≤ row < 20, 0 ≤ col < 10` covered by an
occupied cell of the piece; every out-of-range target — in particular an
occupied cell above the top of the board (negative row) — is silently skipped,
and the model is total, so no board access can be out of range. -/
theorem claim_C10 (s : TetrisState) :
    (lockBoard s).length = s.board.length ∧
    (∀ y : ℕ, ((lockBoard s).getD y []).length = (s.board.getD y []).length) ∧
    (∀ y x : ℕ, (tetrisRows ≤ y ∨ tetrisCols ≤ x ∨ ¬ pieceCovers s y x) →
      boardCell (lockBoard s) y x = boardCell s.board y x) := by
  refine ⟨lockFold_length .., fun y => lockFold_row_length .., fun y x h => ?_⟩
  apply lockFold_cell
  intro rc hrc
  rcases h with hy | hx | hnc
  · exact Or.inl hy
  · exact Or.inr (Or.inl hx)
  · exact Or.inr (Or.inr fun hc => hnc ⟨rc, hrc, hc⟩)

/-- C10 witness: locking the piece of `tetrisLockTopState` keeps the 20-row
board shape and leaves the uncovered cell (5, 5) unchanged. -/
theorem claim_C10_witness :
    (lockBoard tetrisLockTopState).length = tetrisLockTopState.board.length ∧
    ((lockBoard tetrisLockTopState).getD 0 []).length =
      (tetrisLockTopState.board.getD 0 []).length ∧
    boardCell (lockBoard tetrisLockTopState) 5 5 =
      boardCell tetrisLockTopState.board 5 5 :=
  ⟨(claim_C10 tetrisLockTopState).1,
   (claim_C10 tetrisLockTopState).2.1 0,
   (claim_C10 tetrisLockTopState).2.2 5 5 (Or.inr (Or.inr (by decide)))⟩

/-! ## Brick-scan lemmas for Breakout -/

theorem countActiveBricks_cons (b : BrickQ) (l : List BrickQ) :
    countActiveBricks (b :: l) =
      (if b.status = 1 then 1 else 0) + countActiveBricks l := by
  simp only [countActiveBricks, List.filter_cons]
  split <;> simp_all [Nat.add_comm]

theorem scanBricks_none_iff (ball : BallQ) (bw bh : ℚ) (l : List BrickQ) :
    scanBricks ball bw bh l = none ↔
      ∀ b ∈ l, ¬ (b.status = 1 ∧ brickOverlap ball bw bh b = true) := by
  induction l with
  | nil => simp [scanBricks]
  | cons b rest ih =>
      simp only [scanBricks]
      split
      · next hb =>
          constructor
          · intro h; cases h
          · intro h; exact absurd hb (h b (List.mem_cons_self b rest))
      · next hb =>
          cases hrest : scanBricks ball bw bh rest with
          | some r =>
              simp only [hrest]
              constructor
              · intro h; cases h
              · intro h
                have hnone : scanBricks ball bw bh rest = none :=
                  ih.2 fun b' hb' => h b' (List.mem_cons_of_mem b hb')
                rw [hrest] at hnone; cases hnone
          | none =>
              simp only [hrest]
              constructor
              · intro _ b' hb'
                rcases List.mem_cons.1 hb' with rfl | hmem
                · exact hb
                · exact (ih.1 hrest) b' hmem
              · intro _; trivial

theorem scanBricks_some_spec (ball : BallQ) (bw bh : ℚ) :
    ∀ (l l' : List BrickQ) (hb : BrickQ),
      scanBricks ball bw bh l = some (l', hb) →
      hb ∈ l ∧ hb.status = 1 ∧ brickOverlap ball bw bh hb = true ∧
        countActiveBricks l' + 1 = countActiveBricks l := by
  intro l
  induction l with
  | nil => intro l' hb h; cases h
  | cons b rest ih =>
      intro l' hb h
      simp only [scanBricks] at h
      by_cases hcond : b.status = 1 ∧ brickOverlap ball bw bh b = true
      · rw [if_pos hcond] at h
        obtain ⟨h1, h2⟩ := Prod.ext_iff.1 (Option.some.inj h)
        subst h1; subst h2
        refine ⟨List.mem_cons_self .., hcond.1, hcond.2, ?_⟩
        rw [countActiveBricks_cons, countActiveBricks_cons]
        simp only [if_pos hcond.1]
        have : ({ b with status := 0 } : BrickQ).status = 0 := rfl
        rw [if_neg (by omega)]
        omega
      · rw [if_neg hcond] at h
        cases hrest : scanBricks ball bw bh rest with
        | none => rw [hrest] at h; cases h
        | some r =>
            obtain ⟨r1, r2⟩ := r
            rw [hrest] at h
            obtain ⟨h1, h2⟩ := Prod.ext_iff.1 (Option.some.inj h)
            subst h1; subst h2
            obtain ⟨hmem, hst, hov, hcount⟩ := ih r1 r2 hrest
            dsimp only at hcount ⊢
            refine ⟨List.mem_cons_of_mem _ hmem, hst, hov, ?_⟩
            rw [countActiveBricks_cons, countActiveBricks_cons]
            omega

/-! ## Claim C8 -/

/-- C8: in a Breakout frame's brick pass, when no live brick overlaps the ball
the state is unchanged; when at least one does, exactly one brick is destroyed
(the live-brick count drops by exactly one), its points are scored exactly
once, and the ball reflects along the axis of strictly smaller minimum
penetration depth (vertical on ties, mirroring the source's strict
comparison). -/
theorem claim_C8 (s : BreakoutBrickState) :
    ((∀ b ∈ s.bricks,
        ¬ (b.status = 1 ∧ brickOverlap s.ball s.brickWidth s.brickHeight b = true)) →
      checkBrickCollision s = s) ∧
    ((∃ b ∈ s.bricks,
        b.status = 1 ∧ brickOverlap s.ball s.brickWidth s.brickHeight b = true) →
      countActiveBricks (checkBrickCollision s).bricks + 1 =
        countActiveBricks s.bricks ∧
      ∃ hb ∈ s.bricks,
        hb.status = 1 ∧ brickOverlap s.ball s.brickWidth s.brickHeight hb = true ∧
        (checkBrickCollision s).score = s.score + hb.points ∧
        (minOverlapX s.ball s.brickWidth hb < minOverlapY s.ball s.brickHeight hb →
          (checkBrickCollision s).ball = { s.ball with dx := -s.ball.dx }) ∧
        (¬ minOverlapX s.ball s.brickWidth hb < minOverlapY s.ball s.brickHeight hb →
          (checkBrickCollision s).ball = { s.ball with dy := -s.ball.dy })) := by
  constructor
  · intro h
    unfold checkBrickCollision
    rw [(scanBricks_none_iff s.ball s.brickWidth s.brickHeight s.bricks).2 h]
  · intro h
    cases hscan : scanBricks s.ball s.brickWidth s.brickHeight s.bricks with
    | none =>
        obtain ⟨b, hmem, hprop⟩ := h
        exact absurd hprop
          ((scanBricks_none_iff s.ball s.brickWidth s.brickHeight s.bricks).1 hscan b hmem)
    | some r =>
        obtain ⟨l', hb⟩ := r
        obtain ⟨hmem, hst, hov, hcount⟩ :=
          scanBricks_some_spec s.ball s.brickWidth s.brickHeight s.bricks l' hb hscan
        have hrw : checkBrickCollision s =
            { s with bricks := l',
                     ball := bounceBall s.ball s.brickWidth s.brickHeight hb,
                     score := addScore s.score hb.points } := by
          unfold checkBrickCollision
          rw [hscan]
        refine ⟨by rw [hrw]; exact hcount, hb, hmem, hst, hov, by rw [hrw]; rfl, ?_, ?_⟩
        · intro hlt
          rw [hrw]
          show bounceBall s.ball s.brickWidth s.brickHeight hb = _
          unfold bounceBall
          rw [if_pos hlt]
        · intro hge
          rw [hrw]
          show bounceBall s.ball s.brickWidth s.brickHeight hb = _
          unfold bounceBall
          rw [if_neg hge]

/-- C8 witness: in `breakoutHitState` the ball overlaps the first live brick,
so the pass destroys exactly one brick, scores its 60 points once, and
reflects `dy` (the vertical penetration is the smaller one). -/
theorem claim_C8_witness :
    countActiveBricks (checkBrickCollision breakoutHitState).bricks + 1 =
      countActiveBricks breakoutHitState.bricks ∧
    ∃ hb ∈ breakoutHitState.bricks,
      hb.status = 1 ∧
      brickOverlap breakoutHitState.ball breakoutHitState.brickWidth
        breakoutHitState.brickHeight hb = true ∧
      (checkBrickCollision breakoutHitState).score = breakoutHitState.score + hb.points ∧
      (minOverlapX breakoutHitState.ball breakoutHitState.brickWidth hb <
          minOverlapY breakoutHitState.ball breakoutHitState.brickHeight hb →
        (checkBrickCollision breakoutHitState).ball =
          { breakoutHitState.ball with dx := -breakoutHitState.ball.dx }) ∧
      (¬ minOverlapX breakoutHitState.ball breakoutHitState.brickWidth hb <
          minOverlapY breakoutHitState.ball breakoutHitState.brickHeight hb →
        (checkBrickCollision breakoutHitState).ball =
          { breakoutHitState.ball with dy := -breakoutHitState.ball.dy }) :=
  (claim_C8 breakoutHitState).2
    ⟨⟨10, 50, 1, 60⟩, by norm_num [breakoutHitState],
      by norm_num [breakoutHitState], by norm_num [breakoutHitState, brickOverlap]⟩

/-! ## Food-spawning lemmas for Snake -/

theorem spawnFoodGo_not_occ (occ : ℤ × ℤ → Bool) (rnd : ℕ → ℤ × ℤ) :
    ∀ (fuel a : ℕ) (cur : ℤ × ℤ),
      (∃ k, k < fuel ∧ occ (rnd (a + k)) = false) →
      occ (spawnFoodGo occ rnd a fuel cur) = false := by
  intro fuel
  induction fuel with
  | zero =>
      rintro a cur ⟨k, hk, _⟩
      omega
  | succ n ih =>
      rintro a cur ⟨k, hk, hocc⟩
      unfold spawnFoodGo
      dsimp only
      by_cases hf : occ (rnd a) = true
      · rw [if_pos hf]
        apply ih
        rcases Nat.eq_zero_or_pos k with rfl | hkpos
        · rw [Nat.add_zero] at hocc
          rw [hocc] at hf
          cases hf
        · exact ⟨k - 1, by omega, by rw [show a + 1 + (k - 1) = a + k by omega]; exact hocc⟩
      · rw [if_neg hf]
        simpa using hf

/-- SnakeGame.update preserves the snake's length on a step that neither
collides nor eats: the head is inserted and, with no growth pending, the tail
is removed. -/
theorem snakeStep_length_of_quiet (rnd : ℕ → ℤ × ℤ) (t : SnakeState)
    (hg : t.growPending = 0)
    (_hw : ¬ snakeWallOut t)
    (_hs : snakeOccupies t.snake (snakeNewHead t) = false)
    (hne : snakeNewHead t ≠ t.food) :
    (snakeStep rnd t).snake.length = t.snake.length := by
  have hne' : ¬ (((t.snake.headD (0, 0)).1 + t.nextDirection.1,
      (t.snake.headD (0, 0)).2 + t.nextDirection.2) = t.food) := by
    simpa only [snakeNewHead] using hne
  simp only [snakeStep, snakeTriggerGameOver]
  split_ifs <;> simp_all

/-! ## Claim C5 -/

/-- C5 (amended): a step whose new head lands on the food (in bounds, not on
the body, with no growth pending — the configuration every reachable eating
step has) grows the snake by exactly one net cell over the following step
(the length is `+1` right after the eating step and preserved by the next
quiet step), adds the food value 10 to the score, and relocates the food to
an unoccupied cell provided at least one of the 100 random samples misses the
snake; when every sample hits the snake, the food may remain on an occupied
cell. -/
theorem claim_C5 (rnd : ℕ → ℤ × ℤ) (s : SnakeState)
    (hg : s.growPending = 0)
    (heat : snakeNewHead s = s.food)
    (hx0 : 0 ≤ s.food.1) (hx1 : s.food.1 < s.tileX)
    (hy0 : 0 ≤ s.food.2) (hy1 : s.food.2 < s.tileY)
    (hself : snakeOccupies s.snake s.food = false)
    (hrnd : ∃ k, k < 100 ∧ snakeOccupies (s.food :: s.snake) (rnd k) = false) :
    (snakeStep rnd s).snake.length = s.snake.length + 1 ∧
    (snakeStep rnd s).score = s.score + 10 ∧
    (snakeStep rnd s).growPending = 0 ∧
    snakeOccupies (snakeStep rnd s).snake ((snakeStep rnd s).food) = false ∧
    (∀ rnd2 : ℕ → ℤ × ℤ,
      ¬ snakeWallOut (snakeStep rnd s) →
      snakeOccupies (snakeStep rnd s).snake (snakeNewHead (snakeStep rnd s)) = false →
      snakeNewHead (snakeStep rnd s) ≠ (snakeStep rnd s).food →
      (snakeStep rnd2 (snakeStep rnd s)).snake.length = (snakeStep rnd s).snake.length) := by
  unfold snakeNewHead at heat
  have hstep : snakeStep rnd s =
      { s with direction := s.nextDirection,
               snake := s.food :: s.snake,
               score := addScore s.score 10,
               growPending := s.growPending + 1 - 1,
               food := spawnFood (s.food :: s.snake) rnd s.food,
               moveInterval := max 50 (s.moveInterval - 2) } := by
    obtain ⟨h1, h2⟩ := Prod.ext_iff.1 heat
    dsimp only at h1 h2
    simp only [snakeStep]
    rw [heat]
    rw [if_neg (by omega), if_neg (by simp [hself]), if_pos rfl,
      if_pos (by omega : s.growPending + 1 > 0)]
  have hfood : snakeOccupies (s.food :: s.snake)
      (spawnFood (s.food :: s.snake) rnd s.food) = false := by
    apply spawnFoodGo_not_occ
    obtain ⟨k, hk, hkf⟩ := hrnd
    exact ⟨k, hk, by simpa using hkf⟩
  refine ⟨by rw [hstep]; simp, by rw [hstep]; rfl, by rw [hstep]; simp [hg], ?_, ?_⟩
  · rw [hstep]
    exact hfood
  · intro rnd2 hw2 hs2 hne2
    exact snakeStep_length_of_quiet rnd2 (snakeStep rnd s) (by rw [hstep]; simp [hg])
      hw2 hs2 hne2

/-- C5 witness: in `snakeEatState` with the benign `cornerSampler`, the eating
step grows the snake to length 4, adds 10 to the score, relocates the food off
the snake, and the following quiet step keeps the length at 4. -/
theorem claim_C5_witness :
    (snakeStep cornerSampler snakeEatState).snake.length =
      snakeEatState.snake.length + 1 ∧
    (snakeStep cornerSampler snakeEatState).score = snakeEatState.score + 10 ∧
    snakeOccupies (snakeStep cornerSampler snakeEatState).snake
      ((snakeStep cornerSampler snakeEatState).food) = false ∧
    (snakeStep cornerSampler (snakeStep cornerSampler snakeEatState)).snake.length =
      (snakeStep cornerSampler snakeEatState).snake.length := by
  obtain ⟨h1, h2, _h3, h4, h5⟩ :=
    claim_C5 cornerSampler snakeEatState (by decide) (by decide) (by decide)
      (by decide) (by decide) (by decide) (by decide) ⟨0, by decide, by decide⟩
  exact ⟨h1, h2, h4, h5 cornerSampler (by decide) (by decide) (by decide)⟩

/-- C5 counterexample: in `snakeEatState` the step eats the food, but with the
adversarial `headSampler` all 100 spawn attempts hit the snake and the food is
left on the snake's new head cell — refuting the unconditional claim that the
food is relocated to a cell not occupied by the snake. -/
theorem claim_C5_counterexample :
    snakeNewHead snakeEatState = snakeEatState.food ∧
    (snakeStep headSampler snakeEatState).score = snakeEatState.score + 10 ∧
    snakeOccupies (snakeStep headSampler snakeEatState).snake
      ((snakeStep headSampler snakeEatState).food) = true := by
  refine ⟨by decide, by decide, by decide⟩

/-! ## Score-monotonicity lemmas -/

theorem moveAliens_score (s : SIState) : (moveAliens s).score = s.score := by
  unfold moveAliens siTriggerGameOver
  dsimp only
  split
  · rfl
  · split <;> rfl

theorem alienShoot_score (idx : ℕ) (s : SIState) : (alienShoot idx s).score = s.score := by
  unfold alienShoot
  dsimp only
  split <;> rfl

theorem playerBulletIter_score (s : SIState) (i : ℕ) :
    s.score ≤ (playerBulletIter s i).score := by
  unfold playerBulletIter
  dsimp only
  split
  · exact le_rfl
  · split
    · exact le_rfl
    · split
      · exact Nat.le_add_right _ _
      · exact le_rfl

theorem playerBulletsGo_score (i : ℕ) :
    ∀ s : SIState, s.score ≤ (playerBulletsGo s i).score := by
  induction i with
  | zero => intro s; exact playerBulletIter_score s 0
  | succ n ih => intro s; exact le_trans (playerBulletIter_score s (n + 1)) (ih _)

theorem updatePlayerBullets_score (s : SIState) :
    s.score ≤ (updatePlayerBullets s).score := by
  unfold updatePlayerBullets
  split
  · exact le_rfl
  · exact playerBulletsGo_score _ s

theorem alienBulletIter_score (s : SIState) (i : ℕ) :
    (alienBulletIter s i).1.score = s.score := by
  unfold alienBulletIter siTriggerGameOver
  dsimp only
  split
  · rfl
  · split
    · rfl
    · split
      · rfl
      · rfl

theorem alienBulletsGo_score (i : ℕ) :
    ∀ s : SIState, (alienBulletsGo s i).score = s.score := by
  induction i with
  | zero => intro s; exact alienBulletIter_score s 0
  | succ n ih =>
      intro s
      unfold alienBulletsGo
      dsimp only
      split
      · exact alienBulletIter_score s (n + 1)
      · rw [ih, alienBulletIter_score]

theorem updateAlienBullets_score (s : SIState) :
    (updateAlienBullets s).score = s.score := by
  unfold updateAlienBullets
  split
  · rfl
  · exact alienBulletsGo_score _ s

theorem nextWave_score (s : SIState) : s.score ≤ (nextWave s).score :=
  Nat.le_add_right _ _

theorem siMovePlayer_score (s : SIState) : (siMovePlayer s).score = s.score := by
  unfold siMovePlayer
  dsimp only
  split <;> split <;> rfl

theorem siAdvanceFleet_score (s : SIState) : (siAdvanceFleet s).score = s.score := by
  unfold siAdvanceFleet
  dsimp only
  split
  · rw [moveAliens_score]
  · rfl

theorem siUpdate_score_mono (fr : Bool) (idx : ℕ) (s : SIState) :
    s.score ≤ (siUpdate fr idx s).score := by
  unfold siUpdate
  dsimp only
  by_cases hfr : fr = true
  · rw [if_pos hfr]
    split
    · refine le_trans ?_ (nextWave_score _)
      rw [updateAlienBullets_score]
      refine le_trans ?_ (updatePlayerBullets_score _)
      rw [alienShoot_score, siAdvanceFleet_score, siMovePlayer_score]
    · rw [updateAlienBullets_score]
      refine le_trans ?_ (updatePlayerBullets_score _)
      rw [alienShoot_score, siAdvanceFleet_score, siMovePlayer_score]
  · rw [if_neg hfr]
    split
    · refine le_trans ?_ (nextWave_score _)
      rw [updateAlienBullets_score]
      refine le_trans ?_ (updatePlayerBullets_score _)
      rw [siAdvanceFleet_score, siMovePlayer_score]
    · rw [updateAlienBullets_score]
      refine le_trans ?_ (updatePlayerBullets_score _)
      rw [siAdvanceFleet_score, siMovePlayer_score]

theorem snakeStep_score_mono (rnd : ℕ → ℤ × ℤ) (s : SnakeState) :
    s.score ≤ (snakeStep rnd s).score := by
  simp only [snakeStep, snakeTriggerGameOver]
  split_ifs <;> first
    | exact le_rfl
    | exact Nat.le_add_right _ _

theorem tetrisClearLines_score_mono (t : TetrisState) :
    t.score ≤ (tetrisClearLines t).score := by
  unfold tetrisClearLines
  dsimp only
  split
  · split <;> exact Nat.le_add_right _ _
  · exact le_rfl

theorem tetrisRotate_score (t : TetrisState) : (tetrisRotate t).score = t.score := by
  unfold tetrisRotate
  dsimp only
  split
  · rfl
  · split <;> rfl

theorem checkBrickCollision_score_mono (b : BreakoutBrickState) :
    b.score ≤ (checkBrickCollision b).score := by
  unfold checkBrickCollision
  split
  · exact Nat.le_add_right _ _
  · exact le_rfl

/-! ## Claim C6 -/

/-- C6: a Snake step whose computed new head lies outside the grid triggers
game over without inserting the head (the body is unchanged, the run stops,
the controller is notified once) and leaves the score unchanged; and
`addScore` is monotonic — as is the score across every modelled operation of
every game (Snake steps, Space Invaders updates, Tetris line clears and
rotations, Breakout brick passes), so the score never decreases. -/
theorem claim_C6 :
    (∀ (rnd : ℕ → ℤ × ℤ) (s : SnakeState), snakeWallOut s →
      (snakeStep rnd s).snake = s.snake ∧
      (snakeStep rnd s).isRunning = false ∧
      (snakeStep rnd s).notifications = s.notifications + 1 ∧
      (snakeStep rnd s).score = s.score) ∧
    (∀ score n : ℕ, score ≤ addScore score n) ∧
    (∀ (rnd : ℕ → ℤ × ℤ) (s : SnakeState), s.score ≤ (snakeStep rnd s).score) ∧
    (∀ (fr : Bool) (idx : ℕ) (s : SIState), s.score ≤ (siUpdate fr idx s).score) ∧
    (∀ t : TetrisState,
      t.score ≤ (tetrisClearLines t).score ∧ (tetrisRotate t).score = t.score) ∧
    (∀ b : BreakoutBrickState, b.score ≤ (checkBrickCollision b).score) := by
  refine ⟨?_, fun score n => Nat.le_add_right _ _, snakeStep_score_mono,
    siUpdate_score_mono,
    fun t => ⟨tetrisClearLines_score_mono t, tetrisRotate_score t⟩,
    checkBrickCollision_score_mono⟩
  intro rnd s hwall
  have hw' : (s.snake.headD (0, 0)).1 + s.nextDirection.1 < 0 ∨
      (s.snake.headD (0, 0)).1 + s.nextDirection.1 ≥ s.tileX ∨
      (s.snake.headD (0, 0)).2 + s.nextDirection.2 < 0 ∨
      (s.snake.headD (0, 0)).2 + s.nextDirection.2 ≥ s.tileY := by
    simpa only [snakeWallOut, snakeNewHead] using hwall
  simp only [snakeStep, snakeTriggerGameOver]
  rw [if_pos hw']
  exact ⟨rfl, rfl, rfl, rfl⟩

/-- C6 witness: in `snakeAtWall` the next head cell is (20, 12), outside the
20×25 grid, so the step ends the run with the body and score untouched. -/
theorem claim_C6_witness :
    (snakeStep cornerSampler snakeAtWall).snake = snakeAtWall.snake ∧
    (snakeStep cornerSampler snakeAtWall).isRunning = false ∧
    (snakeStep cornerSampler snakeAtWall).notifications =
      snakeAtWall.notifications + 1 ∧
    (snakeStep cornerSampler snakeAtWall).score = snakeAtWall.score :=
  claim_C6.1 cornerSampler snakeAtWall (by decide)

/-! ## Wave-transition lemmas for Space Invaders -/

theorem siMovePlayer_fields (s : SIState) :
    (siMovePlayer s).aliens = s.aliens ∧
    (siMovePlayer s).playerBullets = s.playerBullets ∧
    (siMovePlayer s).alienBullets = s.alienBullets ∧
    (siMovePlayer s).shields = s.shields ∧
    (siMovePlayer s).wave = s.wave ∧
    (siMovePlayer s).alienSpeed = s.alienSpeed ∧
    (siMovePlayer s).alienMoveTimer = s.alienMoveTimer ∧
    (siMovePlayer s).alienMoveInterval = s.alienMoveInterval ∧
    (siMovePlayer s).canvasW = s.canvasW ∧
    (siMovePlayer s).score = s.score := by
  unfold siMovePlayer
  dsimp only
  split <;> split <;>
    exact ⟨rfl, rfl, rfl, rfl, rfl, rfl, rfl, rfl, rfl, rfl⟩

theorem siAdvanceFleet_of_timer (t : SIState)
    (h : t.alienMoveTimer + 16 < t.alienMoveInterval) :
    siAdvanceFleet t = { t with alienMoveTimer := t.alienMoveTimer + 16 } := by
  unfold siAdvanceFleet
  dsimp only
  rw [if_neg (by omega)]

theorem alienShoot_of_dead (idx : ℕ) (t : SIState)
    (h : ∀ a ∈ t.aliens, a.alive = false) : alienShoot idx t = t := by
  unfold alienShoot
  dsimp only
  rw [if_pos]
  rw [List.isEmpty_iff, List.filter_eq_nil_iff]
  intro a ha
  simp [h a ha]

theorem updatePlayerBullets_of_empty (t : SIState) (h : t.playerBullets = []) :
    updatePlayerBullets t = t := by
  unfold updatePlayerBullets
  rw [if_pos (by simp [h])]

theorem updateAlienBullets_of_empty (t : SIState) (h : t.alienBullets = []) :
    updateAlienBullets t = t := by
  unfold updateAlienBullets
  rw [if_pos (by simp [h])]

theorem createAliens_length (w : ℚ) :
    (createAliens w).length = alienRows * alienCols := by
  unfold createAliens
  dsimp only
  rw [List.length_flatMap]
  simp only [Function.comp_def, List.length_map, List.length_range]
  rw [List.map_const', List.length_range, List.sum_replicate, smul_eq_mul]

theorem createAliens_alive (w : ℚ) : ∀ a ∈ createAliens w, a.alive = true := by
  intro a ha
  unfold createAliens at ha
  simp only [List.mem_flatMap, List.mem_map, List.mem_range] at ha
  obtain ⟨row, _, col, _, rfl⟩ := ha
  rfl

/-! ## Claim C4 -/

/-- The tail phases of `SpaceInvadersGame.update` (alien fire roll, both
bullet passes, win check) collapse to `nextWave` when the whole fleet is dead
and both bullet arrays are empty. -/
theorem siLatePhases (fr : Bool) (idx : ℕ) (u : SIState)
    (hdead : ∀ a ∈ u.aliens, a.alive = false)
    (hpb : u.playerBullets = []) (hab : u.alienBullets = []) :
    (if (updateAlienBullets (updatePlayerBullets
        (if fr then alienShoot idx u else u))).aliens.all (fun a => ¬ a.alive) then
      nextWave (updateAlienBullets (updatePlayerBullets
        (if fr then alienShoot idx u else u)))
    else updateAlienBullets (updatePlayerBullets
      (if fr then alienShoot idx u else u))) = nextWave u := by
  have h1 : (if fr then alienShoot idx u else u) = u := by
    split
    · exact alienShoot_of_dead idx u hdead
    · rfl
  rw [h1, updatePlayerBullets_of_empty u hpb, updateAlienBullets_of_empty u hab,
    if_pos]
  rw [List.all_eq_true]
  intro a haa
  simp [hdead a haa]

/-- C4 (amended): from any state whose fleet is entirely dead (with quiescent
bullets and a fleet-move timer that does not expire this frame), the next
update performs the wave transition: a fresh 5×8 fleet with every alien alive,
the wave counter incremented by exactly one, the fleet speed raised by 0.5,
the per-wave move interval reset to `max(200, 1000 - wave*100)` of the new
wave number, and a `100 * wave` clear bonus scored — but the shields are NOT
regenerated: they persist unchanged from the previous wave. -/
theorem claim_C4 (fr : Bool) (idx : ℕ) (s : SIState)
    (hdead : ∀ a ∈ s.aliens, a.alive = false)
    (hpb : s.playerBullets = [])
    (hab : s.alienBullets = [])
    (htimer : s.alienMoveTimer + 16 < s.alienMoveInterval) :
    (siUpdate fr idx s).aliens = createAliens s.canvasW ∧
    (createAliens s.canvasW).length = alienRows * alienCols ∧
    (∀ a ∈ createAliens s.canvasW, a.alive = true) ∧
    (siUpdate fr idx s).wave = s.wave + 1 ∧
    (siUpdate fr idx s).alienSpeed = s.alienSpeed + 1 / 2 ∧
    (siUpdate fr idx s).alienMoveInterval = max 200 (1000 - (s.wave + 1) * 100) ∧
    (siUpdate fr idx s).score = s.score + 100 * (s.wave + 1) ∧
    (siUpdate fr idx s).shields = s.shields := by
  obtain ⟨ha, hp, hb, hsh, hwv, hsp, htm, hin, hcw, hsc⟩ := siMovePlayer_fields s
  have hadv : siAdvanceFleet (siMovePlayer s) =
      { siMovePlayer s with
        alienMoveTimer := (siMovePlayer s).alienMoveTimer + 16 } :=
    siAdvanceFleet_of_timer _ (by rw [htm, hin]; exact htimer)
  have hA : (siAdvanceFleet (siMovePlayer s)).aliens = s.aliens := by rw [hadv]; exact ha
  have hCW : (siAdvanceFleet (siMovePlayer s)).canvasW = s.canvasW := by
    rw [hadv]; exact hcw
  have hWV : (siAdvanceFleet (siMovePlayer s)).wave = s.wave := by rw [hadv]; exact hwv
  have hSP : (siAdvanceFleet (siMovePlayer s)).alienSpeed = s.alienSpeed := by
    rw [hadv]; exact hsp
  have hSC : (siAdvanceFleet (siMovePlayer s)).score = s.score := by rw [hadv]; exact hsc
  have hSH : (siAdvanceFleet (siMovePlayer s)).shields = s.shields := by
    rw [hadv]; exact hsh
  have key : siUpdate fr idx s = nextWave (siAdvanceFleet (siMovePlayer s)) := by
    unfold siUpdate
    dsimp only
    apply siLatePhases
    · intro a haa
      exact hdead a (hA ▸ haa)
    · rw [hadv]; exact hp.trans hpb
    · rw [hadv]; exact hb.trans hab
  rw [key]
  unfold nextWave
  dsimp only
  refine ⟨?_, createAliens_length _, createAliens_alive _, ?_, ?_, ?_, ?_, ?_⟩
  · exact congrArg createAliens hCW
  · rw [hWV]
  · rw [hSP]
  · rw [hWV]
  · show addScore _ _ = _
    rw [addScore, hSC, hWV]
  · exact hSH

/-- C4 witness: from `siWaveEnd` (whole fleet dead, damaged single-block
shield) the next update starts wave 2 with a fresh fully-alive 40-alien
fleet, interval `max(200, 1000-200)`, a 200-point bonus — and the damaged
shield untouched. -/
theorem claim_C4_witness :
    (siUpdate false 0 siWaveEnd).aliens = createAliens siWaveEnd.canvasW ∧
    (createAliens siWaveEnd.canvasW).length = alienRows * alienCols ∧
    (∀ a ∈ createAliens siWaveEnd.canvasW, a.alive = true) ∧
    (siUpdate false 0 siWaveEnd).wave = siWaveEnd.wave + 1 ∧
    (siUpdate false 0 siWaveEnd).alienSpeed = siWaveEnd.alienSpeed + 1 / 2 ∧
    (siUpdate false 0 siWaveEnd).alienMoveInterval =
      max 200 (1000 - (siWaveEnd.wave + 1) * 100) ∧
    (siUpdate false 0 siWaveEnd).score = siWaveEnd.score + 100 * (siWaveEnd.wave + 1) ∧
    (siUpdate false 0 siWaveEnd).shields = siWaveEnd.shields :=
  claim_C4 false 0 siWaveEnd (by decide) rfl rfl (by decide)

/-- C4 counterexample: in `siWaveEnd` the last living alien is already
destroyed and the following update does advance the wave, yet the shields
after the update are the single damaged block of the old wave, not the four
freshly generated shields — refuting "regenerates the shields". -/
theorem claim_C4_counterexample :
    (∀ a ∈ siWaveEnd.aliens, a.alive = false) ∧
    (siUpdate false 0 siWaveEnd).wave = siWaveEnd.wave + 1 ∧
    (siUpdate false 0 siWaveEnd).shields = siWaveEnd.shields ∧
    (siUpdate false 0 siWaveEnd).shields ≠
      createShields siWaveEnd.canvasW siWaveEnd.canvasH := by
  refine ⟨by decide, by with_unfolding_all rfl, by with_unfolding_all rfl, ?_⟩
  intro h
  have h1 : (siUpdate false 0 siWaveEnd).shields.length = 1 := by
    with_unfolding_all rfl
  rw [h] at h1
  have h2 : (createShields siWaveEnd.canvasW siWaveEnd.canvasH).length = 4 := by
    with_unfolding_all rfl
  rw [h2] at h1
  cases h1

/-! ## Claim C1 -/

/-- C1 (amended): every invocation of `triggerGameOver` freezes
`running = false` and reports the current score to the controller exactly once
per call, and each game-ending condition routes through it; but there is no
once-per-run guard, so when several game-ending conditions are detected within
the same update frame the controller is notified once per condition. Stated
for the Space Invaders and Snake instantiations of the shared BaseGame
method. -/
theorem claim_C1 :
    (∀ s : SIState,
      (siTriggerGameOver s).isRunning = false ∧
      (siTriggerGameOver s).notifications = s.notifications + 1 ∧
      (siTriggerGameOver s).reportedScores = s.score :: s.reportedScores ∧
      (siTriggerGameOver s).score = s.score) ∧
    (∀ s : SnakeState,
      (snakeTriggerGameOver s).isRunning = false ∧
      (snakeTriggerGameOver s).notifications = s.notifications + 1 ∧
      (snakeTriggerGameOver s).reportedScores = s.score :: s.reportedScores ∧
      (snakeTriggerGameOver s).score = s.score) :=
  ⟨fun _ => ⟨rfl, rfl, rfl, rfl⟩, fun _ => ⟨rfl, rfl, rfl, rfl⟩⟩

/-- C1 counterexample: from `siTwoFatal` (a run with no notification yet) a
single Space Invaders update frame notifies the controller twice — the
dropping fleet reaches the player's row inside `moveAliens` and an alien
bullet then hits the player inside `updateAlienBullets` — refuting
"notifies the controller exactly once ... even if several game-ending
conditions are detected within the same update frame". -/
theorem claim_C1_counterexample :
    siTwoFatal.notifications = 0 ∧ siTwoFatal.isRunning = true ∧
    (siUpdate false 0 siTwoFatal).notifications = 2 ∧
    (siUpdate false 0 siTwoFatal).reportedScores = [0, 0] := by
  refine ⟨rfl, rfl, ?_, ?_⟩ <;> with_unfolding_all rfl

/-! ## Claim C2 -/

/-- C2: a Tetris lock event clearing `k` complete rows (1 ≤ k ≤ 4) awards
`[0,100,300,500,800][k] * level` points (100 for a single line at level 1),
sets the cumulative line count to `lines + k`, recomputes the level as
`floor(lines/10) + 1` of the new total, and on a level increase resets the
drop interval to `max(100, 1000 - (level-1)*100)`. The hypothesis `hlev` is
the level/lines invariant established by `init` and preserved by every
clear. -/
theorem claim_C2 (s : TetrisState) (k : ℕ)
    (hk : (clearLinesBoard s.board).2 = k) (h1 : 1 ≤ k) (_h4 : k ≤ 4)
    (hlev : s.level = s.lines / 10 + 1) :
    (tetrisClearLines s).score = s.score + [0, 100, 300, 500, 800].getD k 0 * s.level ∧
    (tetrisClearLines s).lines = s.lines + k ∧
    (tetrisClearLines s).level = (s.lines + k) / 10 + 1 ∧
    ((tetrisClearLines s).level > s.level →
      (tetrisClearLines s).dropInterval =
        max 100 (1000 - ((tetrisClearLines s).level - 1) * 100)) := by
  have hmono : s.level ≤ (s.lines + k) / 10 + 1 := by
    rw [hlev]
    exact Nat.succ_le_succ (Nat.div_le_div_right (Nat.le_add_right _ _))
  simp only [tetrisClearLines, hk]
  rw [if_pos (by omega : k > 0)]
  split
  · exact ⟨rfl, rfl, rfl, fun _ => rfl⟩
  · next hgt =>
      refine ⟨rfl, rfl, ?_, ?_⟩
      · show s.level = (s.lines + k) / 10 + 1
        omega
      · intro hbad
        exact absurd (show s.level > s.level from hbad) (lt_irrefl _)

/-- C2 witness: clearing the complete bottom row of `tetrisOneLineState` at
level 1 awards 100 points, totals 1 line and keeps level 1. -/
theorem claim_C2_witness :
    (tetrisClearLines tetrisOneLineState).score =
      tetrisOneLineState.score + [0, 100, 300, 500, 800].getD 1 0 * tetrisOneLineState.level ∧
    (tetrisClearLines tetrisOneLineState).lines = tetrisOneLineState.lines + 1 ∧
    (tetrisClearLines tetrisOneLineState).level = (tetrisOneLineState.lines + 1) / 10 + 1 ∧
    ((tetrisClearLines tetrisOneLineState).level > tetrisOneLineState.level →
      (tetrisClearLines tetrisOneLineState).dropInterval =
        max 100 (1000 - ((tetrisClearLines tetrisOneLineState).level - 1) * 100)) :=
  claim_C2 tetrisOneLineState 1 (by decide) (by decide) (by decide) (by decide)

/-! ## Claim C7 -/

/-- C7: when rotating to the next rotation index collides at the current x but
some offset of the wall-kick sequence `[-1, 1, -2, 2]` fits, the rotation
succeeds and shifts the piece by exactly the first fitting offset; when no
offset fits, position and rotation are unchanged. -/
theorem claim_C7 (s : TetrisState)
    (hcol : checkCollision s.board s.currentPiece s.currentX s.currentY
      ((s.currentRotation + 1) % 4) = true) :
    (∀ k : ℤ, rotateKick s = some k →
      tetrisRotate s =
        { s with currentX := s.currentX + k,
                 currentRotation := (s.currentRotation + 1) % 4 }) ∧
    (rotateKick s = none → tetrisRotate s = s) := by
  constructor
  · intro k hkick
    simp only [tetrisRotate, hcol, hkick]
    simp
  · intro hkick
    simp only [tetrisRotate, hcol, hkick]
    simp

/-- C7 witness: the vertical I piece of `tetrisKickState` collides when
rotated in place at `x = -2` and first fits at kick `+2`, so rotating moves
it to `x = 0` in rotation state 2. -/
theorem claim_C7_witness :
    tetrisRotate tetrisKickState =
      { tetrisKickState with
          currentX := tetrisKickState.currentX + 2,
          currentRotation := (tetrisKickState.currentRotation + 1) % 4 } :=
  (claim_C7 tetrisKickState (by decide)).1 2 (by decide)

/-! ## Claim C9 -/

/-- C9: a key event requesting the 180° reversal of the snake's current
movement direction leaves the buffered `nextDirection` unchanged; a key event
never touches the live `direction` (or the body), and the buffered direction
is applied only when the next movement step runs. -/
theorem claim_C9 (s : SnakeState) (k : SnakeKey) (rnd : ℕ → ℤ × ℤ) :
    (requestedDir k = (-s.direction.1, -s.direction.2) →
      (snakeHandleKeyDown s k).nextDirection = s.nextDirection) ∧
    (snakeHandleKeyDown s k).direction = s.direction ∧
    (snakeHandleKeyDown s k).snake = s.snake ∧
    (snakeStep rnd s).direction = s.nextDirection := by
  refine ⟨?_, ?_, ?_, ?_⟩
  · intro h
    rw [Prod.ext_iff] at h
    cases k <;> simp [requestedDir] at h <;> simp only [snakeHandleKeyDown] <;> split <;>
      first
        | rfl
        | (exfalso; omega)
  · cases k <;> simp only [snakeHandleKeyDown] <;> split <;> rfl
  · cases k <;> simp only [snakeHandleKeyDown] <;> split <;> rfl
  · simp only [snakeStep, snakeTriggerGameOver]
    split
    · rfl
    · split
      · rfl
      · split <;> split <;> rfl

/-- C9 witness: with the snake moving down, an Up key press (the exact
reversal) leaves the buffered direction untouched. -/
theorem claim_C9_witness :
    (snakeHandleKeyDown snakeMovingDown SnakeKey.up).nextDirection =
      snakeMovingDown.nextDirection :=
  (claim_C9 snakeMovingDown SnakeKey.up cornerSampler).1 (by decide)

/-! ## Claim C3 -/

/-- C3: in every frame where the ball moves downward and overlaps the paddle
band, the paddle bounce sends it upward (`dy < 0`) with its speed magnitude
preserved (`dx² + dy²` unchanged), and an impact at the paddle's exact centre
reflects it straight up (`dx = 0`); exact over the real-number idealisation of
the source's floating-point trigonometry. -/
theorem claim_C3 (ball : BallR) (paddle : PaddleR)
    (hw : 0 < paddle.width) (h : paddleHit ball paddle) :
    (checkPaddleCollision ball paddle).dy < 0 ∧
    (checkPaddleCollision ball paddle).dx ^ 2 + (checkPaddleCollision ball paddle).dy ^ 2 =
      ball.dx ^ 2 + ball.dy ^ 2 ∧
    (ball.x = paddle.x + paddle.width / 2 → (checkPaddleCollision ball paddle).dx = 0) := by
  obtain ⟨hdy, hy1, hy2, hx1, hx2⟩ := h
  unfold checkPaddleCollision
  rw [if_pos ⟨hdy, hy1, hy2, hx1, hx2⟩]
  dsimp only
  set hp := (ball.x - paddle.x) / paddle.width with hhp
  set ang := (hp - 0.5) * Real.pi * 0.7 with hang
  set sp := Real.sqrt (ball.dx * ball.dx + ball.dy * ball.dy) with hsp
  have hsum_pos : (0 : ℝ) < ball.dx * ball.dx + ball.dy * ball.dy := by nlinarith
  have hsp_pos : 0 < sp := Real.sqrt_pos.2 hsum_pos
  have hp0 : 0 ≤ hp := div_nonneg (by linarith) hw.le
  have hp1 : hp ≤ 1 := (div_le_one hw).2 (by linarith)
  have hpi := Real.pi_pos
  have hang1 : ang < Real.pi / 2 := by rw [hang]; nlinarith
  have hang2 : -(Real.pi / 2) < ang := by rw [hang]; nlinarith
  have hcos : 0 < Real.cos ang := Real.cos_pos_of_mem_Ioo ⟨hang2, hang1⟩
  refine ⟨?_, ?_, ?_⟩
  · show -Real.cos ang * sp < 0
    nlinarith
  · show (Real.sin ang * sp) ^ 2 + (-Real.cos ang * sp) ^ 2 = ball.dx ^ 2 + ball.dy ^ 2
    have hs : sp ^ 2 = ball.dx * ball.dx + ball.dy * ball.dy := Real.sq_sqrt hsum_pos.le
    have htrig := Real.sin_sq_add_cos_sq ang
    nlinarith [htrig, hs]
  · intro hcx
    show Real.sin ang * sp = 0
    have hhalf : hp = 1 / 2 := by
      rw [hhp, hcx]
      field_simp
      ring
    have hang0 : ang = 0 := by
      rw [hang, hhalf]
      norm_num
    rw [hang0, Real.sin_zero, zero_mul]

/-- C3 witness: the centre impact of `centreBall` on `centrePaddle` leaves
upward at preserved speed and exactly vertical. -/
theorem claim_C3_witness :
    (checkPaddleCollision centreBall centrePaddle).dy < 0 ∧
    (checkPaddleCollision centreBall centrePaddle).dx ^ 2 +
        (checkPaddleCollision centreBall centrePaddle).dy ^ 2 =
      centreBall.dx ^ 2 + centreBall.dy ^ 2 ∧
    (centreBall.x = centrePaddle.x + centrePaddle.width / 2 →
      (checkPaddleCollision centreBall centrePaddle).dx = 0) :=
  claim_C3 centreBall centrePaddle (by norm_num [centrePaddle])
    (by norm_num [paddleHit, centreBall, centrePaddle])

end Arcade
